import Mathlib

/-!
# aws-auth: the `login` and `crypto` command handlers

A shallow embedding of `src/actions/login.js` and `src/actions/crypto.js`.

* JavaScript arrays are `List`s; the in-place array operations used by the
  handlers (`findIndex`, `splice`, `push`) are functions returning the array's
  new contents.
* The handlers talk to collaborators that live outside the two files
  (`ConfUtils`, `Utils.prompts`, `AWSUtils`, the AWS SDK, `fs`, `os`).  Every
  call to one of them is recorded as an `Event` in a trace, and what the call
  answers is a field of a `World` record, so a theorem quantified over all
  worlds speaks about every behaviour of the collaborators.
* `process.exit(n)` and an uncaught exception end a run; a run's `Outcome`
  says which one happened.
-/

set_option autoImplicit false

namespace AwsAuth

/-! ## JavaScript primitives used by the handlers -/

/-- Loop of `Array.prototype.findIndex`: scans from index `i` upwards and returns the index of
the first element satisfying `p`, or `-1` when the scan reaches the end. -/
def findIndexFrom {α : Type} (p : α → Bool) : List α → Nat → Int
  | [], _ => -1
  | x :: xs, i => if p x then (i : Int) else findIndexFrom p xs (i + 1)

/-- Models `Array.prototype.findIndex`. -/
def findIndex {α : Type} (p : α → Bool) (xs : List α) : Int :=
  findIndexFrom p xs 0

/-- Models `Array.prototype.splice(start, deleteCount, ...items)`, returning the array's new contents.
A negative `start` counts from the end, and both `start` and `deleteCount` are clamped to the
array's bounds, as in ECMAScript. -/
def splice {α : Type} (xs : List α) (start : Int) (deleteCount : Nat) (items : List α) : List α :=
  let len : Int := xs.length
  let actualStart : Nat := if start < 0 then (max (len + start) 0).toNat else (min start len).toNat
  let actualDeleteCount : Nat := min deleteCount (xs.length - actualStart)
  xs.take actualStart ++ items ++ xs.drop (actualStart + actualDeleteCount)

/-- Models `Array.prototype.push(item)`, returning the array's new contents. -/
def push {α : Type} (xs : List α) (item : α) : List α :=
  xs ++ [item]

/-- Models `String.prototype.includes` on the characters of the two strings: is `t` a contiguous
run of `s`? -/
def includesChars : List Char → List Char → Bool
  | [], t => t.isEmpty
  | c :: s, t => t.isPrefixOf (c :: s) || includesChars s t

/-- Models `String.prototype.includes(searchString)`. -/
def includes (s t : String) : Bool :=
  includesChars s.data t.data

/-- Models `String.prototype.split(sep)` for a one-character separator, on character lists. -/
def splitChars (sep : Char) : List Char → List (List Char)
  | [] => [[]]
  | c :: cs =>
    if c = sep then [] :: splitChars sep cs
    else
      match splitChars sep cs with
      | [] => [[c]]
      | seg :: rest => (c :: seg) :: rest

/-- The expression `s.split(sep).pop()`: the last piece of `s` when cut at every `sep`. -/
def splitPop (s : String) (sep : Char) : String :=
  String.mk ((splitChars sep s.data).getLastD [])

/-! ## Data model -/

/-- A cached session, as built by `login` (`newSession`). -/
structure Session where
  name : String
  region : String
  keyId : String
  key : String
  sessionToken : String
  expiry : String
  deriving DecidableEq, Repr

/-- An environment of a profile. -/
structure Environment where
  name : String
  accountId : String
  region : String
  roles : List String
  deriving DecidableEq, Repr

/-- A saved profile. -/
structure Profile where
  name : String
  awsCredentials : String
  environments : List Environment
  deriving DecidableEq, Repr

/-- The decrypted CLI configuration.  A key that is absent from the object is `none`
(`Utils.lodashGet(cliConfig, key, [])` then answers the empty array). -/
structure CliConfig where
  profiles : Option (List Profile)
  sessions : Option (List Session)
  deriving DecidableEq, Repr

/-- Models `Utils.lodashGet(obj, key, [])` on an optional array-valued key. -/
def lodashGet {α : Type} (field : Option (List α)) (dflt : List α) : List α :=
  field.getD dflt

/-! ## The session upsert of `login` (login.js, lines 118-123) -/

/-- Lines 118-123 of `login.js`: look the new session's name up with `findIndex`, then
`splice` it over the entry found or `push` it. -/
def upsertSession (sessions : List Session) (newSession : Session) : List Session :=
  let existingEntryIdx := findIndex (fun item => decide (item.name = newSession.name)) sessions
  if existingEntryIdx > -1 then
    splice sessions existingEntryIdx 1 [newSession]
  else
    push sessions newSession

/-- The reference the specification gives for the upsert: if some entry has the new session's
name, the first such entry is replaced at its index; otherwise the new session is appended. -/
def upsertSpec (S : List Session) (n : Session) : List Session :=
  if S.any (fun e => decide (e.name = n.name)) then
    S.set (S.findIdx (fun e => decide (e.name = n.name))) n
  else
    S ++ [n]

/-! ## Runs, events and outcomes -/

/-- A value caught from a rejected call, as the handlers inspect it: its `code` property (`none`
when there is none, or one that is not a string) and its `message` property (`none` when it is
`undefined` or `null`, so that calling `.includes` on it throws). -/
structure JsError where
  code : Option String
  message : Option String
  deriving DecidableEq, Repr

/-- How a run of a command handler ends. -/
inductive Outcome where
  /-- the handler ran to its last statement -/
  | returned
  /-- a call of `process.exit(code)` ended the run -/
  | exited (code : Nat)
  /-- an exception left the handler -/
  | threw (error : JsError)
  deriving DecidableEq, Repr

/-- How a call to a collaborator can end the run instead of answering: the collaborator calls
`process.exit`, or it throws (a rejected promise included). -/
inductive Stop where
  | exit (code : Nat)
  | throw (error : JsError)
  deriving DecidableEq, Repr

/-- The outcome of a run that a collaborator ended. -/
def Stop.toOutcome : Stop → Outcome
  | .exit code => .exited code
  | .throw error => .threw error

/-- The colour getters of the `colors` package applied to a logged string. -/
inductive Color where
  | red
  | yellow
  | green
  deriving DecidableEq, Repr

/-- The `stsParams` object given to `STS.assumeRole`. -/
structure StsParams where
  RoleArn : String
  RoleSessionName : String
  SerialNumber : String
  TokenCode : String
  DurationSeconds : Nat
  deriving DecidableEq, Repr

/-- The `Credentials` of an `assumeRole` response. -/
structure Credentials where
  AccessKeyId : String
  SecretAccessKey : String
  SessionToken : String
  Expiration : String
  deriving DecidableEq, Repr

/-- The observable actions of `login`, in the order of the trace. -/
inductive Event where
  | loadCliConfig
  | log (color : Color) (text : String)
  | prompt (name : String) (message : String) (titles : List String)
  | awsConfigUpdate (awsCredentials : String)
  | newSTS
  | getCallerIdentity
  | assumeRole (params : StsParams)
  | saveCliConfig (cliConfig : CliConfig) (passphrase : Option String)
  | getFeatureFlag (flag : String)
  | writeFileSync (path : String) (data : String)
  deriving DecidableEq, Repr

/-- What the collaborators of `login` answer during one run.  Each of them is called at most
once per run, with arguments fixed by the earlier answers, so one answer per collaborator
describes the run.  A prompt that is cancelled and makes the handler fail on the missing value
is a prompt that throws. -/
structure LoginWorld where
  /-- Answer of `ConfUtils.loadCliConfig()`: the decrypted configuration and the passphrase used -/
  loadCliConfig : Except Stop (CliConfig × Option String)
  /-- answer of prompt 1/5: the index of a profile -/
  promptSelection : Except Stop Nat
  /-- answer of prompt 2/5 -/
  promptEnvironment : Except Stop Environment
  /-- answer of prompt 3/5 -/
  promptRole : Except Stop String
  /-- answer of prompt 4/5, in hours -/
  promptDuration : Except Stop Nat
  /-- Answer of `AWSUtils.constructRoleArn(accountId, role)` -/
  constructRoleArn : String → String → String
  /-- Answer of `STS.getCallerIdentity().promise()`: `Account` and `Arn` -/
  getCallerIdentity : Except Stop (String × String)
  /-- answer of prompt 5/5 -/
  promptMfaCode : Except Stop String
  /-- Value of `os.userInfo().username` -/
  osUsername : String
  /-- Value of `Date.now()` -/
  dateNow : Nat
  /-- Answer of `AWSUtils.constructMfaArn(HubAccountId, username)` -/
  constructMfaArn : String → String → String
  /-- Answer of `STS.assumeRole(stsParams).promise()` -/
  assumeRole : Except JsError Credentials
  /-- Answer of `ConfUtils.saveCliConfig(cliConfig, passphrase)` -/
  saveCliConfig : Except Stop Unit
  /-- Answer of `Utils.getFeatureFlag('INSECURE_USE_AWS_CREDENTIALS_FILE').value` -/
  insecureUseAwsCredentialsFile : Bool
  /-- Answer of `AWSUtils.constructAwsConfig(newSession)`: `credConfig` and `config` -/
  constructAwsConfig : Session → String × String
  /-- Value of `globalConfig.awsCredPath` -/
  awsCredPath : String
  /-- Value of `globalConfig.awsConfigPath` -/
  awsConfigPath : String
  /-- Answer of `fs.writeFileSync(globalConfig.awsCredPath, credConfig)` -/
  writeCredFile : Except JsError Unit
  /-- Answer of `fs.writeFileSync(globalConfig.awsConfigPath, config)` -/
  writeConfigFile : Except JsError Unit

/-- A finished run of `login`: what it did, how it ended, and the in-memory `cliConfig` object
at that moment (`none` when it was never loaded). -/
structure Run where
  trace : List Event
  outcome : Outcome
  cliConfig : Option CliConfig
  deriving DecidableEq, Repr

/-! ## `login` (login.js) -/

/-- The `TypeError` of line 29, when `cliConfig.profiles[selection]` is `undefined`. -/
def profileTypeError : JsError :=
  ⟨none,
    some "Cannot destructure property \x27environments\x27 of \x27profile\x27 as it is undefined."⟩

/-- The `TypeError` of line 87, when `error.message` is `undefined` or `null` and
`error.message.includes` is evaluated. -/
def includesTypeError : JsError :=
  ⟨none, some "Cannot read properties of undefined (reading \x27includes\x27)"⟩

def noProfilesText : String :=
  "CLI configuration has no saved profiles, use \"config\" command to add one"

def noEnvironmentsText : String :=
  "This profile has no saved environments, use \"config\" command to add one"

def durationText (role : String) : String :=
  "Specified session duration exceeds the maximum allowed limit set on the \x27" ++ role ++
    "\x27 role"

def wrongMfaText : String :=
  "Wrong MFA code. Please try again"

def accessDeniedText : String :=
  "Could not assume the selected role. Make sure it\x27s name is correct in the CLI config " ++
    "and that your IAM user (HUB account entity) is allowed to assume it"

def successText : String :=
  "Authentication successful"

/-- Lines 86-104 of `login.js`, the `catch` block around `STS.assumeRole`: what is logged and
how the run ends for the caught `error`.  The first test, `error.message.includes`, throws a
`TypeError` out of the block when the error has no message to call it on. -/
def assumeRoleCatch (role : String) (error : JsError) : List Event × Outcome :=
  match error.message with
  | none => ([], Outcome.threw includesTypeError)
  | some message =>
    if includes message "Duration" then
      ([Event.log Color.red (durationText role)], Outcome.exited 1)
    else if includes message "MultiFactorAuthentication" || includes message "MFA" then
      ([Event.log Color.red wrongMfaText], Outcome.exited 1)
    else if error.code = some "AccessDenied" then
      ([Event.log Color.red accessDeniedText, Event.log Color.red message], Outcome.exited 1)
    else
      ([], Outcome.threw error)

/-- Lines 105-133 of `login.js`: build the session, upsert and save it, mirror it into the
credentials files when the feature flag is set, and report success. -/
def saveKeys (w : LoginWorld) (cliConfig : CliConfig) (passphrase : Option String)
    (profile : Profile) (envName region role : String) (creds : Credentials)
    (t : List Event) : Run :=
  let sessions := lodashGet cliConfig.sessions []
  let newSession : Session :=
    { name := profile.name ++ "/" ++ envName ++ "/" ++ role
      region := region
      keyId := creds.AccessKeyId
      key := creds.SecretAccessKey
      sessionToken := creds.SessionToken
      expiry := creds.Expiration }
  let sessions := upsertSession sessions newSession
  let cliConfig : CliConfig := { cliConfig with sessions := some sessions }
  let t := t ++ [Event.saveCliConfig cliConfig passphrase]
  match w.saveCliConfig with
  | .error s => ⟨t, s.toOutcome, some cliConfig⟩
  | .ok () =>
  let t := t ++ [Event.getFeatureFlag "INSECURE_USE_AWS_CREDENTIALS_FILE"]
  if w.insecureUseAwsCredentialsFile then
    let credConfig := (w.constructAwsConfig newSession).1
    let config := (w.constructAwsConfig newSession).2
    let t := t ++ [Event.writeFileSync w.awsCredPath credConfig]
    match w.writeCredFile with
    | .error e => ⟨t, Outcome.threw e, some cliConfig⟩
    | .ok () =>
    let t := t ++ [Event.writeFileSync w.awsConfigPath config]
    match w.writeConfigFile with
    | .error e => ⟨t, Outcome.threw e, some cliConfig⟩
    | .ok () =>
    ⟨t ++ [Event.log Color.green successText], Outcome.returned, some cliConfig⟩
  else
    ⟨t ++ [Event.log Color.green successText], Outcome.returned, some cliConfig⟩

/-- Lines 61-104 of `login.js`: identify the caller, ask for the MFA code, call
`STS.assumeRole` and handle its error; on success continue with `saveKeys`. -/
def authenticate (w : LoginWorld) (cliConfig : CliConfig) (passphrase : Option String)
    (profile : Profile) (environment : Environment) (role : String) (duration : Nat)
    (t : List Event) : Run :=
  let envName := environment.name
  let accountId := environment.accountId
  let region := environment.region
  let roleToAssumeArn := w.constructRoleArn accountId role
  let t := t ++ [Event.getCallerIdentity]
  match w.getCallerIdentity with
  | .error s => ⟨t, s.toOutcome, some cliConfig⟩
  | .ok (HubAccountId, UserArn) =>
  let username := splitPop UserArn '/'
  let t := t ++ [Event.prompt "mfaCode" "(5/5) Enter your MFA code" []]
  match w.promptMfaCode with
  | .error s => ⟨t, s.toOutcome, some cliConfig⟩
  | .ok mfaCode =>
  let t := t ++ [Event.log Color.yellow
    ("Authenticating into \"" ++ envName ++ "\" environment as \"" ++ role ++ "\"...")]
  let stsParams : StsParams :=
    { RoleArn := roleToAssumeArn
      RoleSessionName :=
        w.osUsername ++ "-" ++ username ++ "-" ++ envName ++ "-" ++ role ++ "-" ++
          toString w.dateNow
      SerialNumber := w.constructMfaArn HubAccountId username
      TokenCode := mfaCode
      DurationSeconds := duration * 3600 }
  let t := t ++ [Event.assumeRole stsParams]
  match w.assumeRole with
  | .error error =>
    let caught := assumeRoleCatch role error
    ⟨t ++ caught.1, caught.2, some cliConfig⟩
  | .ok creds => saveKeys w cliConfig passphrase profile envName region role creds t

/-- The CLI `login` command handler. -/
def login (w : LoginWorld) : Run :=
  let t := [Event.loadCliConfig]
  match w.loadCliConfig with
  | .error s => ⟨t, s.toOutcome, none⟩
  | .ok (cliConfig, passphrase) =>
  let profiles := lodashGet cliConfig.profiles []
  if profiles.length = 0 then
    ⟨t ++ [Event.log Color.red noProfilesText], Outcome.exited 1, some cliConfig⟩
  else
  let t := t ++ [Event.prompt "selection" "(1/5) Select a profile to use"
    (profiles.map (fun p => p.name))]
  match w.promptSelection with
  | .error s => ⟨t, s.toOutcome, some cliConfig⟩
  | .ok selection =>
  match (lodashGet cliConfig.profiles [])[selection]? with
  | none => ⟨t, Outcome.threw profileTypeError, some cliConfig⟩
  | some profile =>
  let environments := profile.environments
  if environments.length = 0 then
    ⟨t ++ [Event.log Color.red noEnvironmentsText], Outcome.exited 1, some cliConfig⟩
  else
  let t := t ++ [Event.awsConfigUpdate profile.awsCredentials, Event.newSTS]
  let t := t ++ [Event.prompt "environment" "(2/5) Choose an environment to log into"
    (environments.map (fun env => env.name))]
  match w.promptEnvironment with
  | .error s => ⟨t, s.toOutcome, some cliConfig⟩
  | .ok environment =>
  let t := t ++ [Event.prompt "role" "(3/5) Choose an IAM role to use" environment.roles]
  match w.promptRole with
  | .error s => ⟨t, s.toOutcome, some cliConfig⟩
  | .ok role =>
  let t := t ++ [Event.prompt "duration" "(4/5) Specify session duration (in hours, 1-12)" []]
  match w.promptDuration with
  | .error s => ⟨t, s.toOutcome, some cliConfig⟩
  | .ok duration => authenticate w cliConfig passphrase profile environment role duration t

/-! ## `crypto` (crypto.js) -/

/-- The configuration file's content as `ConfUtils` hands it around: a plaintext configuration
or an encrypted envelope.  The handler never looks inside. -/
structure StoredConfig where
  content : String
  deriving DecidableEq, Repr

/-- The frozen `Action` object of `crypto.js`. -/
inductive Action where
  | ENCRYPT_CONFIG
  | DECRYPT_CONFIG
  | CHANGE_PASSCODE
  deriving DecidableEq, Repr

/-- The observable actions of `crypto`. -/
inductive CryptoEvent where
  | loadConfigAsIs
  | isEncrypted (config : StoredConfig)
  | prompt (message : String) (choices : List (String × Action))
  | getNewEncryptionKey
  | encryptConfig (config : StoredConfig) (secretKey : String)
  | decryptConfigWithRetry (config : StoredConfig)
  | saveConfigAsIs (config : StoredConfig)
  | log (color : Color) (text : String)
  deriving DecidableEq, Repr

/-- What the collaborators of `crypto` answer during one run. -/
structure CryptoWorld where
  /-- Answer of `ConfUtils.loadConfigAsIs()` -/
  loadConfigAsIs : Except Stop StoredConfig
  /-- Answer of `ConfUtils.isEncrypted(cliConfig)` -/
  isEncrypted : StoredConfig → Bool
  /-- the `selection` the menu prompt answers: one of the actions, or (`none`) a value that is
  none of them, such as `undefined` -/
  promptSelection : Except Stop (Option Action)
  /-- Answer of `ConfUtils.getNewEncryptionKey()` -/
  getNewEncryptionKey : Except Stop String
  /-- Answer of `ConfUtils.encryptConfig(config, secretKey)` -/
  encryptConfig : StoredConfig → String → Except Stop StoredConfig
  /-- Answer of `ConfUtils.decryptConfigWithRetry(config)`, first component of the answer -/
  decryptConfigWithRetry : StoredConfig → Except Stop StoredConfig
  /-- Answer of `ConfUtils.saveConfigAsIs(config)` -/
  saveConfigAsIs : StoredConfig → Except Stop Unit

/-- A finished run of `crypto`. -/
structure CryptoRun where
  trace : List CryptoEvent
  outcome : Outcome
  deriving DecidableEq, Repr

def operationSuccessfulText : String :=
  "Operation successful!"

/-- Line 57 of `crypto.js`. -/
def cryptoFinish (t : List CryptoEvent) : CryptoRun :=
  ⟨t ++ [CryptoEvent.log Color.green operationSuccessfulText], Outcome.returned⟩

/-- Lines 50-57 of `crypto.js`: the `CHANGE_PASSCODE` block, then the success message.  (The
source comment above the block, "handle create or edit actions", does not describe it: the
block changes the passphrase.) -/
def cryptoChangePasscode (w : CryptoWorld) (cliConfig : StoredConfig)
    (selection : Option Action) (t : List CryptoEvent) : CryptoRun :=
  if selection = some Action.CHANGE_PASSCODE then
    let t := t ++ [CryptoEvent.decryptConfigWithRetry cliConfig]
    match w.decryptConfigWithRetry cliConfig with
    | .error s => ⟨t, s.toOutcome⟩
    | .ok decrypted =>
    let t := t ++ [CryptoEvent.getNewEncryptionKey]
    match w.getNewEncryptionKey with
    | .error s => ⟨t, s.toOutcome⟩
    | .ok newSecretKey =>
    let t := t ++ [CryptoEvent.encryptConfig decrypted newSecretKey]
    match w.encryptConfig decrypted newSecretKey with
    | .error s => ⟨t, s.toOutcome⟩
    | .ok encrypted =>
    let t := t ++ [CryptoEvent.saveConfigAsIs encrypted]
    match w.saveConfigAsIs encrypted with
    | .error s => ⟨t, s.toOutcome⟩
    | .ok () => cryptoFinish t
  else
    cryptoFinish t

/-- Lines 43-57 of `crypto.js`: the `DECRYPT_CONFIG` block and what follows it. -/
def cryptoDecrypt (w : CryptoWorld) (cliConfig : StoredConfig)
    (selection : Option Action) (t : List CryptoEvent) : CryptoRun :=
  if selection = some Action.DECRYPT_CONFIG then
    let t := t ++ [CryptoEvent.decryptConfigWithRetry cliConfig]
    match w.decryptConfigWithRetry cliConfig with
    | .error s => ⟨t, s.toOutcome⟩
    | .ok decrypted =>
    let t := t ++ [CryptoEvent.saveConfigAsIs decrypted]
    match w.saveConfigAsIs decrypted with
    | .error s => ⟨t, s.toOutcome⟩
    | .ok () => cryptoChangePasscode w cliConfig selection t
  else
    cryptoChangePasscode w cliConfig selection t

/-- Lines 35-57 of `crypto.js`: the `ENCRYPT_CONFIG` block and what follows it. -/
def cryptoEncrypt (w : CryptoWorld) (cliConfig : StoredConfig)
    (selection : Option Action) (t : List CryptoEvent) : CryptoRun :=
  if selection = some Action.ENCRYPT_CONFIG then
    let t := t ++ [CryptoEvent.getNewEncryptionKey]
    match w.getNewEncryptionKey with
    | .error s => ⟨t, s.toOutcome⟩
    | .ok secretKey =>
    let t := t ++ [CryptoEvent.encryptConfig cliConfig secretKey]
    match w.encryptConfig cliConfig secretKey with
    | .error s => ⟨t, s.toOutcome⟩
    | .ok encrypted =>
    let t := t ++ [CryptoEvent.saveConfigAsIs encrypted]
    match w.saveConfigAsIs encrypted with
    | .error s => ⟨t, s.toOutcome⟩
    | .ok () => cryptoDecrypt w cliConfig selection t
  else
    cryptoDecrypt w cliConfig selection t

/-- The CLI `crypto` command handler. -/
def crypto (w : CryptoWorld) : CryptoRun :=
  let t := [CryptoEvent.loadConfigAsIs]
  match w.loadConfigAsIs with
  | .error s => ⟨t, s.toOutcome⟩
  | .ok cliConfig =>
  let isEncrypted := w.isEncrypted cliConfig
  let t := t ++ [CryptoEvent.isEncrypted cliConfig]
  let choices : List (String × Action) :=
    if isEncrypted then
      push (push [] ("Decrypt the configuration file", Action.DECRYPT_CONFIG))
        ("Change config file passphrase", Action.CHANGE_PASSCODE)
    else
      push [] ("Encrypt the configuration file", Action.ENCRYPT_CONFIG)
  let t := t ++ [CryptoEvent.prompt "What do you want to do?" choices]
  match w.promptSelection with
  | .error s => ⟨t, s.toOutcome⟩
  | .ok selection => cryptoEncrypt w cliConfig selection t

/-! ## Classifying events -/

/-- Is the event a call of `STS.assumeRole`? -/
def Event.isAssumeRole : Event → Bool
  | .assumeRole _ => true
  | _ => false

/-- Is the event a call of `ConfUtils.saveCliConfig`? -/
def Event.isSaveCliConfig : Event → Bool
  | .saveCliConfig _ _ => true
  | _ => false

/-- Is the event a call of `fs.writeFileSync`? -/
def Event.isWriteFileSync : Event → Bool
  | .writeFileSync _ _ => true
  | _ => false

/-- Is the event a call of `Utils.prompts`? -/
def Event.isPrompt : Event → Bool
  | .prompt _ _ _ => true
  | _ => false

/-- Is the event a call to STS (`getCallerIdentity` or `assumeRole`)? -/
def Event.isStsCall : Event → Bool
  | .getCallerIdentity => true
  | .assumeRole _ => true
  | _ => false

/-- Is the event a log in the given colour? -/
def Event.isLogIn (color : Color) : Event → Bool
  | .log c _ => decide (c = color)
  | _ => false

/-- The events `login` can produce before it calls `STS.assumeRole`: loading the configuration,
prompts, SDK set-up, `getCallerIdentity` and the yellow progress line. -/
def Event.isBeforeAssumeRole : Event → Bool
  | .loadCliConfig => true
  | .prompt _ _ _ => true
  | .awsConfigUpdate _ => true
  | .newSTS => true
  | .getCallerIdentity => true
  | .log c _ => decide (c = Color.yellow)
  | _ => false

/-- Is the event a call of `ConfUtils.saveConfigAsIs`? -/
def CryptoEvent.isSaveConfigAsIs : CryptoEvent → Bool
  | .saveConfigAsIs _ => true
  | _ => false

/-! ## Example data -/

def sessA : Session := ⟨"work/dev/admin", "eu-west-1", "AKIA-A", "key-a", "token-a", "t1"⟩

def sessB : Session := ⟨"work/prod/reader", "eu-west-1", "AKIA-B", "key-b", "token-b", "t2"⟩

def sessC : Session := ⟨"work/dev/admin", "us-east-1", "AKIA-C", "key-c", "token-c", "t3"⟩

def devEnvironment : Environment := ⟨"dev", "111122223333", "eu-west-1", ["admin", "reader"]⟩

def workProfile : Profile := ⟨"work", "long-lived-keys", [devEnvironment]⟩

def workConfig : CliConfig := ⟨some [workProfile], some [sessA, sessB]⟩

/-- A run of `login` in which every collaborator answers. -/
def happyWorld : LoginWorld where
  loadCliConfig := .ok (workConfig, some "hunter2")
  promptSelection := .ok 0
  promptEnvironment := .ok devEnvironment
  promptRole := .ok "admin"
  promptDuration := .ok 1
  constructRoleArn := fun accountId role => "arn:aws:iam::" ++ accountId ++ ":role/" ++ role
  getCallerIdentity := .ok ("999988887777", "arn:aws:iam::999988887777:user/alice")
  promptMfaCode := .ok "123456"
  osUsername := "al"
  dateNow := 1700000000000
  constructMfaArn := fun accountId user => "arn:aws:iam::" ++ accountId ++ ":mfa/" ++ user
  assumeRole := .ok ⟨"AKIA-C", "key-c", "token-c", "t3"⟩
  saveCliConfig := .ok ()
  insecureUseAwsCredentialsFile := true
  constructAwsConfig := fun s => (s.keyId, s.region)
  awsCredPath := "~/.aws/credentials"
  awsConfigPath := "~/.aws/config"
  writeCredFile := .ok ()
  writeConfigFile := .ok ()

/-- The `stsParams` that `login` builds in `happyWorld`. -/
def happyParams : StsParams :=
  { RoleArn := "arn:aws:iam::111122223333:role/admin"
    RoleSessionName := "al-alice-dev-admin-1700000000000"
    SerialNumber := "arn:aws:iam::999988887777:mfa/alice"
    TokenCode := "123456"
    DurationSeconds := 3600 }

/-- STS rejects the requested duration; the error also carries the code `AccessDenied` and
mentions MFA. -/
def durationError : JsError :=
  ⟨some "AccessDenied",
    some "The requested DurationSeconds exceeds the MaxSessionDuration (MFA ok)"⟩

def durationWorld : LoginWorld := { happyWorld with assumeRole := .error durationError }

/-- STS is unreachable. -/
def networkError : JsError := ⟨some "NetworkingError", some "connect ETIMEDOUT"⟩

def networkWorld : LoginWorld := { happyWorld with assumeRole := .error networkError }

/-- STS denies the role. -/
def deniedMessage : String := "User is not authorized to perform sts:AssumeRole"

def deniedError : JsError := ⟨some "AccessDenied", some deniedMessage⟩

def deniedWorld : LoginWorld := { happyWorld with assumeRole := .error deniedError }

/-- STS denies the role with an error that has a code and no message. -/
def deniedNoMessageError : JsError := ⟨some "AccessDenied", none⟩

def deniedNoMessageWorld : LoginWorld :=
  { happyWorld with assumeRole := .error deniedNoMessageError }

/-- STS fails with an error that has another code and no message. -/
def throttledNoMessageError : JsError := ⟨some "Throttling", none⟩

def throttledNoMessageWorld : LoginWorld :=
  { happyWorld with assumeRole := .error throttledNoMessageError }

/-- The configuration has an empty `profiles` list. -/
def emptyWorld : LoginWorld :=
  { happyWorld with loadCliConfig := .ok (⟨some [], some [sessA]⟩, some "hunter2") }

/-- A run of `crypto` on an encrypted file in which the user picks the passphrase change. -/
def rotateWorld : CryptoWorld where
  loadConfigAsIs := .ok ⟨"enc(old):profiles"⟩
  isEncrypted := fun c => includes c.content "enc("
  promptSelection := .ok (some Action.CHANGE_PASSCODE)
  getNewEncryptionKey := .ok "new"
  encryptConfig := fun c k => .ok ⟨"enc(" ++ k ++ "):" ++ c.content⟩
  decryptConfigWithRetry := fun _ => .ok ⟨"profiles"⟩
  saveConfigAsIs := fun _ => .ok ()

/-- A run of `crypto` in which the menu prompt answers no action (`selection` is
`undefined`, as when the prompt is dismissed). -/
def dismissedWorld : CryptoWorld := { rotateWorld with promptSelection := .ok none }

/-! ## Theorems -/

theorem findIndexFrom_eq {α : Type} (p : α → Bool) (xs : List α) (i : Nat) :
    findIndexFrom p xs i = if xs.any p then ((i + xs.findIdx p : Nat) : Int) else -1 := by
  induction xs generalizing i with
  | nil => simp [findIndexFrom]
  | cons x xs ih =>
    by_cases hx : p x = true
    · simp [findIndexFrom, hx, List.findIdx_cons]
    · have hx' : p x = false := by simpa using hx
      simp only [findIndexFrom, hx', List.any_cons, Bool.false_or, List.findIdx_cons, ih]
      by_cases ha : xs.any p = true
      · simp [ha]; omega
      · simp [ha]

theorem splice_one_eq_set {α : Type} (xs : List α) (i : Nat) (a : α) (h : i < xs.length) :
    splice xs (i : Int) 1 [a] = xs.set i a := by
  have h1 : ¬ ((i : Int) < 0) := by omega
  have h2 : (min (i : Int) (xs.length : Int)).toNat = i := by
    rw [min_eq_left (by omega)]; simp
  have h3 : min 1 (xs.length - i) = 1 := by omega
  simp only [splice, h1, if_false, h2, h3]
  rw [List.set_eq_take_append_cons_drop, if_pos h]
  simp

theorem upsertSession_eq_upsertSpec (S : List Session) (n : Session) :
    upsertSession S n = upsertSpec S n := by
  unfold upsertSession upsertSpec findIndex
  simp only [findIndexFrom_eq]
  by_cases ha : S.any (fun e => decide (e.name = n.name)) = true
  · have hlt : S.findIdx (fun e => decide (e.name = n.name)) < S.length := by
      apply List.findIdx_lt_length_of_exists
      simpa using ha
    simp only [ha, if_true, Nat.zero_add]
    rw [if_pos (by omega), splice_one_eq_set _ _ _ hlt]
  · simp only [ha]
    simp [push]

theorem upsertSession_nil (n : Session) : upsertSession [] n = [n] := by
  simp [upsertSession_eq_upsertSpec, upsertSpec]

theorem upsertSession_cons (s : Session) (rest : List Session) (n : Session) :
    upsertSession (s :: rest) n =
      if s.name = n.name then n :: rest else s :: upsertSession rest n := by
  simp only [upsertSession_eq_upsertSpec, upsertSpec]
  by_cases h : s.name = n.name
  · simp [h, List.findIdx_cons]
  · by_cases ha : rest.any (fun e => decide (e.name = n.name)) = true
    · simp [h, ha, List.findIdx_cons]
    · simp [h, ha, List.findIdx_cons]

theorem assumeRoleCatch_none (role : String) (e : JsError) (h : e.message = none) :
    assumeRoleCatch role e = ([], Outcome.threw includesTypeError) := by
  simp [assumeRoleCatch, h]

theorem assumeRoleCatch_some (role : String) (e : JsError) (m : String)
    (h : e.message = some m) :
    assumeRoleCatch role e =
      if includes m "Duration" then
        ([Event.log Color.red (durationText role)], Outcome.exited 1)
      else if includes m "MultiFactorAuthentication" || includes m "MFA" then
        ([Event.log Color.red wrongMfaText], Outcome.exited 1)
      else if e.code = some "AccessDenied" then
        ([Event.log Color.red accessDeniedText, Event.log Color.red m], Outcome.exited 1)
      else
        ([], Outcome.threw e) := by
  simp [assumeRoleCatch, h]

theorem assumeRoleCatch_logs_red (role : String) (e : JsError) :
    ∀ ev ∈ (assumeRoleCatch role e).1, ev.isLogIn Color.red = true := by
  rcases hm : e.message with _ | m
  · simp [assumeRoleCatch_none role e hm]
  · rw [assumeRoleCatch_some role e m hm]
    split_ifs <;> simp [Event.isLogIn]

theorem assumeRoleCatch_outcome (role : String) (e : JsError) :
    (assumeRoleCatch role e).2 = Outcome.exited 1 ∨
      (assumeRoleCatch role e).2 = Outcome.threw e ∨
      (e.message = none ∧ (assumeRoleCatch role e).2 = Outcome.threw includesTypeError) := by
  rcases hm : e.message with _ | m
  · simp [assumeRoleCatch_none role e hm]
  · rw [assumeRoleCatch_some role e m hm]
    split_ifs <;> simp

/-- Inversion of a run of `login` that called `STS.assumeRole` and got an error: everything
before the call succeeded, and the run is the events before the call, the call, and what the
`catch` block does. -/
theorem login_of_assumeRole_error (w : LoginWorld) (e : JsError) (p : StsParams)
    (herr : w.assumeRole = .error e) (hreach : Event.assumeRole p ∈ (login w).trace) :
    ∃ cfg pass role pre,
      w.loadCliConfig = .ok (cfg, pass) ∧ w.promptRole = .ok role ∧
      (∀ ev ∈ pre, ev.isBeforeAssumeRole = true) ∧
      login w = ⟨(pre ++ [Event.assumeRole p]) ++ (assumeRoleCatch role e).1,
        (assumeRoleCatch role e).2, some cfg⟩ := by
  unfold login at hreach ⊢
  rcases hl : w.loadCliConfig with s | ⟨cfg, pass⟩
  · simp [hl] at hreach
  simp only [hl] at hreach ⊢
  by_cases hp : (lodashGet cfg.profiles []).length = 0
  · simp [hp] at hreach
  simp only [hp, if_false] at hreach ⊢
  rcases hs : w.promptSelection with s | selection
  · simp [hs] at hreach
  simp only [hs] at hreach ⊢
  rcases hprof : (lodashGet cfg.profiles [])[selection]? with _ | profile
  · simp [hprof] at hreach
  simp only [hprof] at hreach ⊢
  by_cases he : profile.environments.length = 0
  · simp [he] at hreach
  simp only [he, if_false] at hreach ⊢
  rcases henv : w.promptEnvironment with s | environment
  · simp [henv] at hreach
  simp only [henv] at hreach ⊢
  rcases hrole : w.promptRole with s | role
  · simp [hrole] at hreach
  simp only [hrole] at hreach ⊢
  rcases hdur : w.promptDuration with s | duration
  · simp [hdur] at hreach
  simp only [hdur] at hreach ⊢
  unfold authenticate at hreach ⊢
  rcases hid : w.getCallerIdentity with s | ⟨hub, arn⟩
  · simp [hid] at hreach
  simp only [hid] at hreach ⊢
  rcases hmfa : w.promptMfaCode with s | mfaCode
  · simp [hmfa] at hreach
  simp only [hmfa, herr] at hreach ⊢
  have hcatch : Event.assumeRole p ∉ (assumeRoleCatch role e).1 := by
    intro hmem
    have := assumeRoleCatch_logs_red role e _ hmem
    simp [Event.isLogIn] at this
  simp only [List.mem_append, hcatch, or_false] at hreach
  simp at hreach
  subst hreach
  refine ⟨cfg, pass, role, _, rfl, rfl, ?_, rfl⟩
  simp [Event.isBeforeAssumeRole]

theorem mem_names_upsertSession (S : List Session) (n : Session) (x : String) :
    x ∈ (upsertSession S n).map (fun e => e.name) ↔
      x ∈ S.map (fun e => e.name) ∨ x = n.name := by
  induction S with
  | nil => simp [upsertSession_nil]
  | cons s rest ih =>
    rw [upsertSession_cons]
    by_cases h : s.name = n.name
    · simp only [h, if_true, List.map_cons, List.mem_cons]
      tauto
    · simp only [h, if_false, List.map_cons, List.mem_cons, ih]
      tauto

/-! ### The session upsert -/

/-- C1: the upsert of `login` (findIndex, then splice or push) equals the reference: when some
entry has the new session's name, the first such entry is replaced at its index, the length is
kept and every other position is unchanged; otherwise the new session is appended.  In
particular `[A(name=x), B]` upserted with `C(name=x)` is `[C, B]`. -/
theorem upsertSession_matches_reference (S : List Session) (n : Session) :
    upsertSession S n = upsertSpec S n ∧
    ((∃ e ∈ S, e.name = n.name) →
      ∃ i, i < S.length ∧ (∃ e, S[i]? = some e ∧ e.name = n.name) ∧
        (∀ j e, j < i → S[j]? = some e → e.name ≠ n.name) ∧
        (upsertSession S n).length = S.length ∧
        (upsertSession S n)[i]? = some n ∧
        (∀ j, j ≠ i → (upsertSession S n)[j]? = S[j]?)) ∧
    ((¬ ∃ e ∈ S, e.name = n.name) → upsertSession S n = S ++ [n]) ∧
    (∀ A B C : Session, A.name = C.name → upsertSession [A, B] C = [C, B]) := by
  refine ⟨upsertSession_eq_upsertSpec S n, ?_, ?_, ?_⟩
  · intro hex
    have hany : S.any (fun e => decide (e.name = n.name)) = true := by simpa using hex
    have hlt : S.findIdx (fun e => decide (e.name = n.name)) < S.length :=
      List.findIdx_lt_length_of_exists (by simpa using hex)
    have hres : upsertSession S n = S.set (S.findIdx (fun e => decide (e.name = n.name))) n := by
      rw [upsertSession_eq_upsertSpec, upsertSpec, if_pos hany]
    refine ⟨S.findIdx (fun e => decide (e.name = n.name)), hlt, ?_, ?_, ?_, ?_, ?_⟩
    · refine ⟨S[S.findIdx (fun e => decide (e.name = n.name))], by simp, ?_⟩
      have := @List.findIdx_getElem _ (fun e => decide (e.name = n.name)) S hlt
      simpa using this
    · intro j e hj hje
      have hjl : j < S.length := by omega
      have := List.not_of_lt_findIdx hj
      rw [List.getElem?_eq_getElem hjl] at hje
      have he : S[j] = e := by simpa using hje
      rw [he] at this
      simpa using this
    · rw [hres]; simp
    · rw [hres]; simp [hlt]
    · intro j hj
      rw [hres, List.getElem?_set_ne (Ne.symm hj)]
  · intro hno
    have hany : ¬ S.any (fun e => decide (e.name = n.name)) = true := by simpa using hno
    rw [upsertSession_eq_upsertSpec, upsertSpec, if_neg hany]
  · intro A B C h
    rw [upsertSession_cons, if_pos h]

/-- C2: the upsert of `login` is idempotent. -/
theorem upsertSession_idempotent (S : List Session) (s : Session) :
    upsertSession (upsertSession S s) s = upsertSession S s := by
  induction S with
  | nil => rw [upsertSession_nil, upsertSession_cons, if_pos rfl]
  | cons a rest ih =>
    rw [upsertSession_cons]
    by_cases h : a.name = s.name
    · rw [if_pos h, upsertSession_cons, if_pos rfl]
    · rw [if_neg h, upsertSession_cons, if_neg h, ih]

/-- C3: the upsert of `login` preserves name uniqueness: when no two entries of the list share
a name, no two entries of the result do, and the result has exactly one entry with the new
session's name, the new session itself. -/
theorem upsertSession_preserves_unique_names (S : List Session) (n : Session)
    (huniq : (S.map (fun e => e.name)).Nodup) :
    ((upsertSession S n).map (fun e => e.name)).Nodup ∧
    (upsertSession S n).filter (fun e => decide (e.name = n.name)) = [n] := by
  induction S with
  | nil => simp [upsertSession_nil]
  | cons a rest ih =>
    rw [List.map_cons, List.nodup_cons] at huniq
    obtain ⟨hnot, hrest⟩ := huniq
    rw [upsertSession_cons]
    by_cases h : a.name = n.name
    · rw [if_pos h]
      refine ⟨?_, ?_⟩
      · rw [List.map_cons, List.nodup_cons, ← h]
        exact ⟨hnot, hrest⟩
      · rw [List.filter_cons_of_pos (by simp)]
        congr 1
        rw [List.filter_eq_nil_iff]
        intro e he hname
        apply hnot
        rw [h]
        have : e.name = n.name := by simpa using hname
        rw [← this]
        exact List.mem_map_of_mem _ he
    · rw [if_neg h]
      obtain ⟨ih1, ih2⟩ := ih hrest
      refine ⟨?_, ?_⟩
      · rw [List.map_cons, List.nodup_cons]
        refine ⟨?_, ih1⟩
        rw [mem_names_upsertSession]
        rintro (hm | hm)
        · exact hnot hm
        · exact h hm
      · rw [List.filter_cons_of_neg (by simpa using h)]
        exact ih2

/-! ### Errors of `STS.assumeRole` -/

theorem not_later_of_isBeforeAssumeRole (ev : Event) (h : ev.isBeforeAssumeRole = true) :
    ev.isAssumeRole = false ∧ ev.isSaveCliConfig = false ∧ ev.isWriteFileSync = false ∧
      ev.isLogIn Color.green = false ∧ ev.isLogIn Color.red = false := by
  cases ev <;>
    simp_all [Event.isBeforeAssumeRole, Event.isAssumeRole, Event.isSaveCliConfig,
      Event.isWriteFileSync, Event.isLogIn]

theorem not_later_of_isLogIn_red (ev : Event) (h : ev.isLogIn Color.red = true) :
    ev.isAssumeRole = false ∧ ev.isSaveCliConfig = false ∧ ev.isWriteFileSync = false ∧
      ev.isLogIn Color.green = false := by
  cases ev <;>
    simp_all [Event.isAssumeRole, Event.isSaveCliConfig, Event.isWriteFileSync, Event.isLogIn]

/-- C4: when `STS.assumeRole` raises an error whose message contains "Duration", `login`
prints the duration-limit message and exits with code 1, whatever the error's code and the
rest of its message; the configuration object is the loaded one, unmodified, and
`saveCliConfig` is not invoked. -/
theorem login_duration_error (w : LoginWorld) (e : JsError) (p : StsParams) (m : String)
    (herr : w.assumeRole = .error e) (hreach : Event.assumeRole p ∈ (login w).trace)
    (hmsg : e.message = some m) (hdur : includes m "Duration" = true) :
    ∃ cfg pass role pre,
      w.loadCliConfig = .ok (cfg, pass) ∧ w.promptRole = .ok role ∧
      (login w).trace = pre ++ [Event.assumeRole p, Event.log Color.red (durationText role)] ∧
      (login w).outcome = Outcome.exited 1 ∧
      (login w).cliConfig = some cfg ∧
      (∀ ev ∈ (login w).trace, ev.isSaveCliConfig = false) := by
  obtain ⟨cfg, pass, role, pre, hl, hr, hpre, hrun⟩ := login_of_assumeRole_error w e p herr hreach
  have hc : assumeRoleCatch role e =
      ([Event.log Color.red (durationText role)], Outcome.exited 1) := by
    rw [assumeRoleCatch_some role e m hmsg, if_pos hdur]
  rw [hc] at hrun
  refine ⟨cfg, pass, role, pre, hl, hr, ?_, ?_, ?_, ?_⟩
  · rw [hrun]; simp
  · rw [hrun]
  · rw [hrun]
  · rw [hrun]
    intro ev hev
    simp only [List.mem_append, List.mem_singleton] at hev
    rcases hev with (hev | hev) | hev
    · exact (not_later_of_isBeforeAssumeRole ev (hpre ev hev)).2.1
    · subst hev; rfl
    · subst hev; rfl

/-- What holds for every error of `STS.assumeRole`, with or without a message: the run does
not return; it ends by `process.exit(1)`, by rethrowing the error or, for an error without a
message, by the `TypeError` of line 87.  The configuration object is the loaded one,
unmodified, and the run has no `saveCliConfig` call, no `fs.writeFileSync` call and no green
(success) line. -/
theorem login_assumeRole_error_no_session (w : LoginWorld) (e : JsError) (p : StsParams)
    (herr : w.assumeRole = .error e) (hreach : Event.assumeRole p ∈ (login w).trace) :
    ((login w).outcome = Outcome.exited 1 ∨ (login w).outcome = Outcome.threw e ∨
      (e.message = none ∧ (login w).outcome = Outcome.threw includesTypeError)) ∧
    (∃ cfg pass, w.loadCliConfig = .ok (cfg, pass) ∧ (login w).cliConfig = some cfg) ∧
    (∀ ev ∈ (login w).trace, ev.isSaveCliConfig = false ∧ ev.isWriteFileSync = false ∧
      ev.isLogIn Color.green = false) := by
  obtain ⟨cfg, pass, role, pre, hl, hr, hpre, hrun⟩ := login_of_assumeRole_error w e p herr hreach
  refine ⟨?_, ⟨cfg, pass, hl, ?_⟩, ?_⟩
  · rw [hrun]; exact assumeRoleCatch_outcome role e
  · rw [hrun]
  · rw [hrun]
    intro ev hev
    simp only [List.mem_append, List.mem_singleton] at hev
    rcases hev with (hev | hev) | hev
    · have := not_later_of_isBeforeAssumeRole ev (hpre ev hev)
      exact ⟨this.2.1, this.2.2.1, this.2.2.2.1⟩
    · subst hev; exact ⟨rfl, rfl, rfl⟩
    · have := not_later_of_isLogIn_red ev (assumeRoleCatch_logs_red role e ev hev)
      exact ⟨this.2.1, this.2.2.1, this.2.2.2⟩

/-- For an error of `STS.assumeRole` without a message, whatever its code: nothing is logged
after the call and the run ends with the `TypeError` of line 87, not with the error. -/
theorem login_assumeRole_error_without_message (w : LoginWorld) (e : JsError) (p : StsParams)
    (herr : w.assumeRole = .error e) (hreach : Event.assumeRole p ∈ (login w).trace)
    (hmsg : e.message = none) :
    ∃ pre,
      (∀ ev ∈ pre, ev.isAssumeRole = false ∧ ev.isLogIn Color.red = false) ∧
      (login w).trace = pre ++ [Event.assumeRole p] ∧
      (login w).outcome = Outcome.threw includesTypeError ∧
      (login w).outcome ≠ Outcome.exited 1 ∧ (login w).outcome ≠ Outcome.threw e := by
  obtain ⟨cfg, pass, role, pre, hl, hr, hpre, hrun⟩ := login_of_assumeRole_error w e p herr hreach
  rw [assumeRoleCatch_none role e hmsg] at hrun
  refine ⟨pre, ?_, ?_, ?_, ?_, ?_⟩
  · intro ev hev
    have := not_later_of_isBeforeAssumeRole ev (hpre ev hev)
    exact ⟨this.1, this.2.2.2.2⟩
  · rw [hrun]; simp
  · rw [hrun]
  · rw [hrun]; simp
  · rw [hrun]
    intro h
    have hmm : includesTypeError.message = e.message := by
      have := Outcome.threw.inj h
      rw [this]
    rw [hmsg] at hmm
    simp [includesTypeError] at hmm

/-- For an error of `STS.assumeRole` whose message is a string, the classification by `login`
has fixed precedence: "Duration" in the message, then "MultiFactorAuthentication" or "MFA" in
the message, then code `AccessDenied` (the upstream message is printed), otherwise the same
error is rethrown; `assumeRole` is called once.  So access denied is reported only for a
message with none of the three substrings. -/
theorem login_assumeRole_error_classification (w : LoginWorld) (e : JsError) (p : StsParams)
    (m : String)
    (herr : w.assumeRole = .error e) (hreach : Event.assumeRole p ∈ (login w).trace)
    (hmsg : e.message = some m) :
    ∃ role pre,
      w.promptRole = .ok role ∧ (∀ ev ∈ pre, ev.isAssumeRole = false) ∧
      (login w).trace.countP Event.isAssumeRole = 1 ∧
      (includes m "Duration" = true →
        (login w).trace = pre ++ [Event.assumeRole p, Event.log Color.red (durationText role)] ∧
        (login w).outcome = Outcome.exited 1) ∧
      (includes m "Duration" = false →
        (includes m "MultiFactorAuthentication" = true ∨ includes m "MFA" = true) →
        (login w).trace = pre ++ [Event.assumeRole p, Event.log Color.red wrongMfaText] ∧
        (login w).outcome = Outcome.exited 1) ∧
      (includes m "Duration" = false →
        includes m "MultiFactorAuthentication" = false →
        includes m "MFA" = false → e.code = some "AccessDenied" →
        (login w).trace = pre ++ [Event.assumeRole p, Event.log Color.red accessDeniedText,
          Event.log Color.red m] ∧
        (login w).outcome = Outcome.exited 1) ∧
      (includes m "Duration" = false →
        includes m "MultiFactorAuthentication" = false →
        includes m "MFA" = false → e.code ≠ some "AccessDenied" →
        (login w).trace = pre ++ [Event.assumeRole p] ∧
        (login w).outcome = Outcome.threw e) ∧
      ((login w).trace = pre ++ [Event.assumeRole p, Event.log Color.red accessDeniedText,
          Event.log Color.red m] →
        e.code = some "AccessDenied" ∧ includes m "Duration" = false ∧
        includes m "MultiFactorAuthentication" = false ∧
        includes m "MFA" = false) := by
  obtain ⟨cfg, pass, role, pre, hl, hr, hpre, hrun⟩ := login_of_assumeRole_error w e p herr hreach
  have hpre' : ∀ ev ∈ pre, ev.isAssumeRole = false := fun ev hev =>
    (not_later_of_isBeforeAssumeRole ev (hpre ev hev)).1
  have hcatch : ∀ ev ∈ (assumeRoleCatch role e).1, ev.isAssumeRole = false := fun ev hev =>
    (not_later_of_isLogIn_red ev (assumeRoleCatch_logs_red role e ev hev)).1
  refine ⟨role, pre, hr, hpre', ?_, ?_, ?_, ?_, ?_, ?_⟩
  · rw [hrun]
    simp only [List.countP_append, List.countP_cons, List.countP_nil]
    rw [List.countP_eq_zero.mpr (by simpa using hpre'),
      List.countP_eq_zero.mpr (by simpa using hcatch)]
    simp [Event.isAssumeRole]
  · intro h1
    rw [hrun, assumeRoleCatch_some role e m hmsg]
    simp [h1]
  · intro h1 h2
    rw [hrun, assumeRoleCatch_some role e m hmsg]
    rcases h2 with h2 | h2 <;> simp [h1, h2]
  · intro h1 h2 h3 h4
    rw [hrun, assumeRoleCatch_some role e m hmsg]
    simp [h1, h2, h3, h4]
  · intro h1 h2 h3 h4
    rw [hrun, assumeRoleCatch_some role e m hmsg]
    simp [h1, h2, h3, h4]
  · intro htr
    rw [hrun, assumeRoleCatch_some role e m hmsg] at htr
    simp only [List.append_assoc, List.append_cancel_left_eq, List.singleton_append,
      List.cons.injEq, true_and] at htr
    have hlen := congrArg List.length htr
    split_ifs at hlen with h1 h2 h3 <;> simp at hlen
    simp only [Bool.or_eq_true, not_or, Bool.not_eq_true] at h2
    exact ⟨h3, by simpa using h1, h2.1, h2.2⟩

/-- C5, at the failing input: `STS.assumeRole` rejects with an error that has the code
`AccessDenied` and no message.  The call is made, and the run ends with the `TypeError` of
line 87: neither `process.exit(1)` nor the rejected error rethrown. -/
theorem login_messageless_error_outcome :
    deniedNoMessageWorld.assumeRole = .error deniedNoMessageError ∧
    Event.assumeRole happyParams ∈ (login deniedNoMessageWorld).trace ∧
    (login deniedNoMessageWorld).outcome = Outcome.threw includesTypeError ∧
    (login deniedNoMessageWorld).outcome ≠ Outcome.exited 1 ∧
    (login deniedNoMessageWorld).outcome ≠ Outcome.threw deniedNoMessageError :=
  ⟨rfl, by decide, by decide, by decide, by decide⟩

/-- C10, at the failing inputs: for an error with code `AccessDenied` and no message, `login`
prints no red line at all (access denied is not reported) and ends with the `TypeError` of
line 87; for an error with another code and no message it ends with that `TypeError` too,
not with the error rethrown. -/
theorem login_messageless_error_unclassified :
    (Event.assumeRole happyParams ∈ (login deniedNoMessageWorld).trace ∧
      (∀ ev ∈ (login deniedNoMessageWorld).trace, ev.isLogIn Color.red = false) ∧
      (login deniedNoMessageWorld).outcome = Outcome.threw includesTypeError) ∧
    (Event.assumeRole happyParams ∈ (login throttledNoMessageWorld).trace ∧
      (login throttledNoMessageWorld).outcome = Outcome.threw includesTypeError ∧
      (login throttledNoMessageWorld).outcome ≠ Outcome.threw throttledNoMessageError) := by
  decide

/-! ### The other paths of `login` -/

theorem Stop.toOutcome_ne_returned (s : Stop) : s.toOutcome ≠ Outcome.returned := by
  cases s <;> simp [Stop.toOutcome]

/-- C6: when the loaded configuration has no `profiles` key or an empty `profiles` list,
`login` prints the no-saved-profiles line and exits with code 1; the run has no prompt, no STS
call and no `saveCliConfig` call. -/
theorem login_no_profiles (w : LoginWorld) (cfg : CliConfig) (pass : Option String)
    (hl : w.loadCliConfig = .ok (cfg, pass))
    (hp : cfg.profiles = none ∨ cfg.profiles = some []) :
    login w = ⟨[Event.loadCliConfig, Event.log Color.red noProfilesText],
      Outcome.exited 1, some cfg⟩ ∧
    (∀ ev ∈ (login w).trace,
      ev.isPrompt = false ∧ ev.isStsCall = false ∧ ev.isSaveCliConfig = false) := by
  have hlen : (lodashGet cfg.profiles []).length = 0 := by
    rcases hp with hp | hp <;> simp [hp, lodashGet]
  have hrun : login w = ⟨[Event.loadCliConfig, Event.log Color.red noProfilesText],
      Outcome.exited 1, some cfg⟩ := by
    unfold login
    simp only [hl, hlen, if_true]
    rfl
  refine ⟨hrun, ?_⟩
  rw [hrun]
  intro ev hev
  simp only [List.mem_cons, List.mem_singleton, List.not_mem_nil, or_false] at hev
  rcases hev with hev | hev <;> subst hev <;> exact ⟨rfl, rfl, rfl⟩

/-- C7: in a run of `login` that returns, `saveCliConfig` is invoked exactly once, and with the
passphrase that `loadCliConfig` returned. -/
theorem login_success_saves_once (w : LoginWorld)
    (hsucc : (login w).outcome = Outcome.returned) :
    ∃ cfg pass saved,
      w.loadCliConfig = .ok (cfg, pass) ∧
      (login w).trace.filter Event.isSaveCliConfig = [Event.saveCliConfig saved pass] := by
  unfold login at hsucc ⊢
  rcases hl : w.loadCliConfig with s | ⟨cfg, pass⟩
  · simp [hl, Stop.toOutcome_ne_returned] at hsucc
  simp only [hl] at hsucc ⊢
  by_cases hp : (lodashGet cfg.profiles []).length = 0
  · simp [hp] at hsucc
  simp only [hp, if_false] at hsucc ⊢
  rcases hs : w.promptSelection with s | selection
  · simp [hs, Stop.toOutcome_ne_returned] at hsucc
  simp only [hs] at hsucc ⊢
  rcases hprof : (lodashGet cfg.profiles [])[selection]? with _ | profile
  · simp [hprof] at hsucc
  simp only [hprof] at hsucc ⊢
  by_cases he : profile.environments.length = 0
  · simp [he] at hsucc
  simp only [he, if_false] at hsucc ⊢
  rcases henv : w.promptEnvironment with s | environment
  · simp [henv, Stop.toOutcome_ne_returned] at hsucc
  simp only [henv] at hsucc ⊢
  rcases hrole : w.promptRole with s | role
  · simp [hrole, Stop.toOutcome_ne_returned] at hsucc
  simp only [hrole] at hsucc ⊢
  rcases hdur : w.promptDuration with s | duration
  · simp [hdur, Stop.toOutcome_ne_returned] at hsucc
  simp only [hdur] at hsucc ⊢
  unfold authenticate at hsucc ⊢
  rcases hid : w.getCallerIdentity with s | ⟨hub, arn⟩
  · simp [hid, Stop.toOutcome_ne_returned] at hsucc
  simp only [hid] at hsucc ⊢
  rcases hmfa : w.promptMfaCode with s | mfaCode
  · simp [hmfa, Stop.toOutcome_ne_returned] at hsucc
  simp only [hmfa] at hsucc ⊢
  rcases hassume : w.assumeRole with e | creds
  · simp only [hassume] at hsucc
    rcases assumeRoleCatch_outcome role e with h | h | ⟨_, h⟩ <;>
      rw [h] at hsucc <;> exact absurd hsucc (by simp)
  simp only [hassume] at hsucc ⊢
  unfold saveKeys at hsucc ⊢
  rcases hsave : w.saveCliConfig with s | u
  · simp [hsave, Stop.toOutcome_ne_returned] at hsucc
  simp only [hsave] at hsucc ⊢
  by_cases hflag : w.insecureUseAwsCredentialsFile = true
  · simp only [hflag, if_true] at hsucc ⊢
    rcases hw1 : w.writeCredFile with e1 | u1
    · simp [hw1] at hsucc
    simp only [hw1] at hsucc ⊢
    rcases hw2 : w.writeConfigFile with e2 | u2
    · simp [hw2] at hsucc
    simp only [hw2]
    simp [List.filter_cons, Event.isSaveCliConfig]
  · simp only [hflag]
    simp [List.filter_cons, Event.isSaveCliConfig]

/-! ### `crypto` -/

/-- For a selection that is one of the three actions, `crypto` prints the success line only
after a `saveConfigAsIs` call that returned normally. -/
theorem crypto_success_after_save_of_action (w : CryptoWorld) (a : Action)
    (hsel : w.promptSelection = .ok (some a))
    (hlog : CryptoEvent.log Color.green operationSuccessfulText ∈ (crypto w).trace) :
    ∃ c, CryptoEvent.saveConfigAsIs c ∈ (crypto w).trace ∧ w.saveConfigAsIs c = .ok () := by
  unfold crypto at hlog ⊢
  rcases hl : w.loadConfigAsIs with s | cfg
  · simp [hl] at hlog
  simp only [hl, hsel] at hlog ⊢
  cases a
  · simp only [cryptoEncrypt, if_true] at hlog ⊢
    rcases hk : w.getNewEncryptionKey with s | k
    · simp [hk] at hlog
    simp only [hk] at hlog ⊢
    rcases henc : w.encryptConfig cfg k with s | c
    · simp [henc] at hlog
    simp only [henc] at hlog ⊢
    rcases hsave : w.saveConfigAsIs c with s | u
    · simp [hsave] at hlog
    exact ⟨c, by simp [hsave, cryptoDecrypt, cryptoChangePasscode, cryptoFinish], hsave⟩
  · simp only [cryptoEncrypt, cryptoDecrypt, if_true] at hlog ⊢
    simp only [show ¬ (some Action.DECRYPT_CONFIG = some Action.ENCRYPT_CONFIG) by decide,
      if_false] at hlog ⊢
    rcases hd : w.decryptConfigWithRetry cfg with s | d
    · simp [hd] at hlog
    simp only [hd] at hlog ⊢
    rcases hsave : w.saveConfigAsIs d with s | u
    · simp [hsave] at hlog
    exact ⟨d, by simp [hsave, cryptoChangePasscode, cryptoFinish], hsave⟩
  · simp only [cryptoEncrypt, cryptoDecrypt, cryptoChangePasscode, if_true] at hlog ⊢
    simp only [show ¬ (some Action.CHANGE_PASSCODE = some Action.ENCRYPT_CONFIG) by decide,
      show ¬ (some Action.CHANGE_PASSCODE = some Action.DECRYPT_CONFIG) by decide,
      if_false] at hlog ⊢
    rcases hd : w.decryptConfigWithRetry cfg with s | d
    · simp [hd] at hlog
    simp only [hd] at hlog ⊢
    rcases hk : w.getNewEncryptionKey with s | k
    · simp [hk] at hlog
    simp only [hk] at hlog ⊢
    rcases henc : w.encryptConfig d k with s | c
    · simp [henc] at hlog
    simp only [henc] at hlog ⊢
    rcases hsave : w.saveConfigAsIs c with s | u
    · simp [hsave] at hlog
    exact ⟨c, by simp [hsave, cryptoFinish], hsave⟩

/-- C8, at the failing input: when the menu prompt answers a value that is none of the three
actions, `crypto` prints the success line and returns although `saveConfigAsIs` was never
invoked. -/
theorem crypto_success_without_save :
    CryptoEvent.log Color.green operationSuccessfulText ∈ (crypto dismissedWorld).trace ∧
    (crypto dismissedWorld).outcome = Outcome.returned ∧
    (∀ ev ∈ (crypto dismissedWorld).trace, ev.isSaveConfigAsIs = false) := by
  decide

theorem save_events_of_shape (pfx tail : List CryptoEvent) (c : StoredConfig)
    (hp : ∀ ev ∈ pfx, ev.isSaveConfigAsIs = false)
    (ht : ∀ ev ∈ tail, ev.isSaveConfigAsIs = false) :
    (pfx ++ [CryptoEvent.saveConfigAsIs c] ++ tail).countP CryptoEvent.isSaveConfigAsIs ≤ 1 ∧
    ∀ c2, CryptoEvent.saveConfigAsIs c2 ∈ pfx ++ [CryptoEvent.saveConfigAsIs c] ++ tail →
      c2 = c := by
  refine ⟨?_, ?_⟩
  · simp only [List.countP_append, List.countP_cons, List.countP_nil]
    rw [List.countP_eq_zero.mpr (by simpa using hp), List.countP_eq_zero.mpr (by simpa using ht)]
    simp [CryptoEvent.isSaveConfigAsIs]
  · intro c2 h
    simp only [List.mem_append, List.mem_singleton] at h
    rcases h with (h | h) | h
    · have := hp _ h
      simp [CryptoEvent.isSaveConfigAsIs] at this
    · simpa using h
    · have := ht _ h
      simp [CryptoEvent.isSaveConfigAsIs] at this

/-- Shape of a run of `crypto` for `CHANGE_PASSCODE`: either some step before the save failed
and the run has no save, or the run is a save-free prefix holding the decrypt and new-key
calls, the save of the re-encrypted configuration, and a save-free rest. -/
theorem crypto_change_passcode_run (w : CryptoWorld)
    (hsel : w.promptSelection = .ok (some Action.CHANGE_PASSCODE)) :
    ((∀ ev ∈ (crypto w).trace, ev.isSaveConfigAsIs = false) ∧
      ∀ cfg d k c, w.loadConfigAsIs = .ok cfg → w.decryptConfigWithRetry cfg = .ok d →
        w.getNewEncryptionKey = .ok k → w.encryptConfig d k = .ok c → False) ∨
    (∃ cfg d k c pfx tail,
      w.loadConfigAsIs = .ok cfg ∧ w.decryptConfigWithRetry cfg = .ok d ∧
      w.getNewEncryptionKey = .ok k ∧ w.encryptConfig d k = .ok c ∧
      (crypto w).trace = pfx ++ [CryptoEvent.saveConfigAsIs c] ++ tail ∧
      (∀ ev ∈ pfx, ev.isSaveConfigAsIs = false) ∧ (∀ ev ∈ tail, ev.isSaveConfigAsIs = false) ∧
      CryptoEvent.decryptConfigWithRetry cfg ∈ pfx ∧ CryptoEvent.getNewEncryptionKey ∈ pfx) := by
  unfold crypto
  rcases hl : w.loadConfigAsIs with s | cfg
  · left
    simp [CryptoEvent.isSaveConfigAsIs]
  simp only [hsel, cryptoEncrypt, cryptoDecrypt, cryptoChangePasscode, if_true,
    show ¬ (some Action.CHANGE_PASSCODE = some Action.ENCRYPT_CONFIG) by decide,
    show ¬ (some Action.CHANGE_PASSCODE = some Action.DECRYPT_CONFIG) by decide, if_false]
  rcases hd : w.decryptConfigWithRetry cfg with s | d
  · left
    refine ⟨by simp [CryptoEvent.isSaveConfigAsIs], ?_⟩
    intro cfg2 d2 k2 c2 h1 h2
    have : cfg2 = cfg := by simpa using h1.symm
    subst this
    rw [hd] at h2
    exact absurd h2 (by simp)
  rcases hk : w.getNewEncryptionKey with s | k
  · left
    refine ⟨by simp [CryptoEvent.isSaveConfigAsIs], ?_⟩
    intro cfg2 d2 k2 c2 _ _ h3
    exact absurd h3 (by simp)
  simp only []
  rcases henc : w.encryptConfig d k with s | c
  · left
    refine ⟨by simp [CryptoEvent.isSaveConfigAsIs], ?_⟩
    intro cfg2 d2 k2 c2 h1 h2 h3 h4
    have e1 : cfg2 = cfg := by simpa using h1.symm
    subst e1
    have e2 : d2 = d := by rw [hd] at h2; simpa using h2.symm
    subst e2
    have e3 : k2 = k := by simpa using h3.symm
    subst e3
    rw [henc] at h4
    exact absurd h4 (by simp)
  simp only []
  right
  rcases hsave : w.saveConfigAsIs c with s | u
  · refine ⟨cfg, d, k, c, [CryptoEvent.loadConfigAsIs, CryptoEvent.isEncrypted cfg,
      CryptoEvent.prompt "What do you want to do?" _, CryptoEvent.decryptConfigWithRetry cfg,
      CryptoEvent.getNewEncryptionKey, CryptoEvent.encryptConfig d k], [],
      rfl, hd, rfl, henc, rfl, ?_, by simp, ?_, ?_⟩
    · simp [CryptoEvent.isSaveConfigAsIs]
    · simp
    · simp
  · refine ⟨cfg, d, k, c, [CryptoEvent.loadConfigAsIs, CryptoEvent.isEncrypted cfg,
      CryptoEvent.prompt "What do you want to do?" _, CryptoEvent.decryptConfigWithRetry cfg,
      CryptoEvent.getNewEncryptionKey, CryptoEvent.encryptConfig d k],
      [CryptoEvent.log Color.green operationSuccessfulText],
      rfl, hd, rfl, henc, rfl, ?_, ?_, ?_, ?_⟩
    · simp [CryptoEvent.isSaveConfigAsIs]
    · simp [CryptoEvent.isSaveConfigAsIs]
    · simp
    · simp

/-- C9: when `CHANGE_PASSCODE` is selected, `saveConfigAsIs` is invoked at most once; an
invocation saves `encryptConfig(d, k)` for the `d` that `decryptConfigWithRetry` returned on
the loaded configuration and the `k` that `getNewEncryptionKey` returned, and both calls come
before it; when either of them fails, `saveConfigAsIs` is not invoked at all. -/
theorem crypto_change_passcode (w : CryptoWorld)
    (hsel : w.promptSelection = .ok (some Action.CHANGE_PASSCODE)) :
    (crypto w).trace.countP CryptoEvent.isSaveConfigAsIs ≤ 1 ∧
    (∀ c, CryptoEvent.saveConfigAsIs c ∈ (crypto w).trace →
      ∃ cfg d k pre post,
        w.loadConfigAsIs = .ok cfg ∧ w.decryptConfigWithRetry cfg = .ok d ∧
        w.getNewEncryptionKey = .ok k ∧ w.encryptConfig d k = .ok c ∧
        (crypto w).trace = pre ++ CryptoEvent.saveConfigAsIs c :: post ∧
        CryptoEvent.decryptConfigWithRetry cfg ∈ pre ∧ CryptoEvent.getNewEncryptionKey ∈ pre ∧
        (∀ ev ∈ pre, ev.isSaveConfigAsIs = false)) ∧
    (∀ cfg, w.loadConfigAsIs = .ok cfg →
      ((∃ s, w.decryptConfigWithRetry cfg = .error s) ∨
        (∃ s, w.getNewEncryptionKey = .error s)) →
      ∀ ev ∈ (crypto w).trace, ev.isSaveConfigAsIs = false) := by
  rcases crypto_change_passcode_run w hsel with ⟨hno, _⟩ | ⟨cfg, d, k, c, pfx, tail, hl, hd, hk,
    henc, htr, hpfx, htail, hm1, hm2⟩
  · refine ⟨?_, ?_, ?_⟩
    · rw [List.countP_eq_zero.mpr (by simpa using hno)]
      exact Nat.zero_le 1
    · intro c hc
      have := hno _ hc
      simp [CryptoEvent.isSaveConfigAsIs] at this
    · intro _ _ _
      exact hno
  · obtain ⟨hcount, honly⟩ := save_events_of_shape pfx tail c hpfx htail
    rw [← htr] at hcount honly
    refine ⟨hcount, ?_, ?_⟩
    · intro c2 hc2
      have hcc := honly c2 hc2
      subst hcc
      exact ⟨cfg, d, k, pfx, tail, hl, hd, hk, henc, by rw [htr]; simp, hm1, hm2, hpfx⟩
    · intro cfg2 hcfg2 hfail
      have e1 : cfg2 = cfg := by rw [hl] at hcfg2; simpa using hcfg2.symm
      subst e1
      rcases hfail with ⟨s, hs⟩ | ⟨s, hs⟩
      · rw [hd] at hs; exact absurd hs (by simp)
      · rw [hk] at hs; exact absurd hs (by simp)

/-! ### The theorems at concrete inputs -/

theorem upsertSession_matches_reference_witness :
    sessA.name = sessC.name ∧ upsertSession [sessA, sessB] sessC = [sessC, sessB] :=
  ⟨by decide,
    (upsertSession_matches_reference [sessA, sessB] sessC).2.2.2 sessA sessB sessC (by decide)⟩

theorem upsertSession_preserves_unique_names_witness :
    ([sessA, sessB].map (fun e => e.name)).Nodup ∧
    ((upsertSession [sessA, sessB] sessC).map (fun e => e.name)).Nodup ∧
    (upsertSession [sessA, sessB] sessC).filter (fun e => decide (e.name = sessC.name)) =
      [sessC] :=
  ⟨by decide, upsertSession_preserves_unique_names [sessA, sessB] sessC (by decide)⟩

theorem login_duration_error_witness :
    Event.assumeRole happyParams ∈ (login durationWorld).trace ∧
    durationError.code = some "AccessDenied" ∧
    (login durationWorld).outcome = Outcome.exited 1 ∧
    (∀ ev ∈ (login durationWorld).trace, ev.isSaveCliConfig = false) := by
  obtain ⟨_, _, _, _, _, _, _, hout, _, hsave⟩ :=
    login_duration_error durationWorld durationError happyParams
      "The requested DurationSeconds exceeds the MaxSessionDuration (MFA ok)"
      rfl (by decide) rfl (by decide)
  exact ⟨by decide, rfl, hout, hsave⟩

theorem login_no_profiles_witness :
    login emptyWorld = ⟨[Event.loadCliConfig, Event.log Color.red noProfilesText],
      Outcome.exited 1, some ⟨some [], some [sessA]⟩⟩ :=
  (login_no_profiles emptyWorld ⟨some [], some [sessA]⟩ (some "hunter2") rfl (Or.inr rfl)).1

theorem login_success_saves_once_witness :
    (login happyWorld).outcome = Outcome.returned ∧
    ∃ cfg pass saved,
      happyWorld.loadCliConfig = .ok (cfg, pass) ∧
      (login happyWorld).trace.filter Event.isSaveCliConfig =
        [Event.saveCliConfig saved pass] :=
  ⟨by decide, login_success_saves_once happyWorld (by decide)⟩

theorem crypto_change_passcode_witness :
    rotateWorld.promptSelection = .ok (some Action.CHANGE_PASSCODE) ∧
    CryptoEvent.saveConfigAsIs ⟨"enc(new):profiles"⟩ ∈ (crypto rotateWorld).trace ∧
    (crypto rotateWorld).trace.countP CryptoEvent.isSaveConfigAsIs ≤ 1 :=
  ⟨rfl, by decide, (crypto_change_passcode rotateWorld rfl).1⟩

theorem login_assumeRole_error_no_session_witness :
    Event.assumeRole happyParams ∈ (login networkWorld).trace ∧
    (∀ ev ∈ (login networkWorld).trace, ev.isSaveCliConfig = false ∧
      ev.isWriteFileSync = false ∧ ev.isLogIn Color.green = false) :=
  ⟨by decide,
    (login_assumeRole_error_no_session networkWorld networkError happyParams rfl
      (by decide)).2.2⟩

theorem login_assumeRole_error_without_message_witness :
    ∃ pre, (login throttledNoMessageWorld).trace = pre ++ [Event.assumeRole happyParams] ∧
      (login throttledNoMessageWorld).outcome = Outcome.threw includesTypeError := by
  obtain ⟨pre, _, htr, hout, _, _⟩ :=
    login_assumeRole_error_without_message throttledNoMessageWorld throttledNoMessageError
      happyParams rfl (by decide) rfl
  exact ⟨pre, htr, hout⟩

theorem login_assumeRole_error_classification_witness :
    Event.assumeRole happyParams ∈ (login deniedWorld).trace ∧
    ∃ role pre,
      deniedWorld.promptRole = .ok role ∧
      (login deniedWorld).trace = pre ++ [Event.assumeRole happyParams,
        Event.log Color.red accessDeniedText, Event.log Color.red deniedMessage] ∧
      (login deniedWorld).outcome = Outcome.exited 1 := by
  obtain ⟨role, pre, hrole, _, _, _, _, hdenied, _, _⟩ :=
    login_assumeRole_error_classification deniedWorld deniedError happyParams deniedMessage
      rfl (by decide) rfl
  have h := hdenied (by decide) (by decide) (by decide) rfl
  exact ⟨by decide, role, pre, hrole, h.1, h.2⟩

end AwsAuth
